import Mathlib

/-!
# Verification of the agentic-shopping orchestration core

Shallow embedding of the retrying model-invocation loop and the response
walk of `src/gemini.py` (`run_agent_task`), the sequential three-agent
orchestrator of `src/shopping_app.py` (`execute_multi_agent`), and the
bounded status-log buffer of `src/shopping_app.py` (`_make_status_logger`).

The external model backend (the `genai` client) is modelled as a stub: a
function from the attempt number to either a raised error or a
`ModelResponse`.  Time is not modelled; the backoff waits passed to
`asyncio.sleep` are recorded in order as rational numbers.
-/

/-! ## Model-response data (the opaque structure returned by the backend)

Mirrors the shapes probed by `src/gemini.py` lines 96-110: a response has a
list of candidates, a candidate has an optional content, a content has a
list of parts, and a part optionally carries a function call, a function
response, and a text.  Payloads that the code only passes to `json.dumps`
are kept as opaque strings. -/

structure FunctionCall where
  name : Option String
  args : Option String
deriving DecidableEq, Repr

structure FunctionResponse where
  name : Option String
  response : Option String
deriving DecidableEq, Repr

structure ResponsePart where
  function_call : Option FunctionCall
  function_response : Option FunctionResponse
  text : Option String
deriving DecidableEq, Repr

structure Content where
  parts : List ResponsePart
deriving DecidableEq, Repr

structure Candidate where
  content : Option Content
deriving DecidableEq, Repr

structure ModelResponse where
  candidates : List Candidate
deriving DecidableEq, Repr

/-- Modelled from the spec: the `.text` accessor of the external `genai`
response object (not part of this repository), which `run_agent_task`
returns at `src/gemini.py` line 118.  Per the spec it is the response's
optional final text field: the concatenation of the text parts of the
first candidate, and null/None when there are no candidates, no content,
or no text parts. -/
def ModelResponse.text (r : ModelResponse) : Option String :=
  match r.candidates.head? with
  | none => none
  | some c =>
    match c.content with
    | none => none
    | some ct =>
      let texts := ct.parts.filterMap (fun p => p.text)
      if texts.isEmpty then none else some (String.join texts)

/-! ## Observability events

Each constructor corresponds to one `emit` / `emit_json` call site in
`src/gemini.py`; the human-facing string formatting is abstracted to the
data it interpolates. -/

inductive LogEvent where
  /-- Plain banner or framing line (lines 51-53, 92-93, 112-114, 116). -/
  | banner (s : String)
  /-- Line 74: `Attempt {attempt_num}/{max_attempts}: contacting Gemini…`. -/
  | attemptMsg (attemptNum maxAttempts : Nat)
  /-- Line 86: request failed, will wait `wait` before the next attempt. -/
  | retryMsg (err : String) (wait : ℚ)
  /-- Line 88: `❌ Max retries reached. Aborting this agent.`. -/
  | abortMsg
  /-- Line 96: `🔍 Has candidates: {...}`. -/
  | hasCandidates (b : Bool)
  /-- Line 104: `🔨 TOOL CALL #{i+1}-{j+1}` with name and args. -/
  | toolCall (i j : Nat) (name : String) (args : Option String)
  /-- Line 108: `📥 TOOL RESPONSE #{i+1}-{j+1}` with name and payload. -/
  | toolResponse (i j : Nat) (name : String) (payload : Option String)
  /-- Line 110: `💬 AGENT RESPONSE #{i+1}-{j+1}` with display-truncated text. -/
  | agentText (i j : Nat) (t : String)
  /-- Line 115: `emit(response.text)`. -/
  | finalText (t : Option String)
deriving DecidableEq, Repr

/-! ## The retry loop (`src/gemini.py` lines 69-90)

The backend stub `behavior` maps each attempt number to the outcome of
`client.aio.models.generate_content`: `.error e` models a raised exception,
`.ok r` a returned response.  The loop `for attempt_num in range(1,
max_attempts + 1)` is embedded with the remaining iteration count as
structural fuel; `retryLoop` enters with `attempt_num = 1` and fuel
`maxAttempts`, so fuel runs out exactly when the `for` loop ends without
`break` (only possible when `max_attempts = 0`, leaving `response = None`). -/

inductive RetryResult where
  /-- The call succeeded and the loop hit `break` (line 83). -/
  | ok (r : ModelResponse)
  /-- The final attempt failed and the bare `raise` re-raised it (line 89). -/
  | exhausted (e : String)
  /-- The loop body never ran; `response` is still `None` (line 69). -/
  | noAttempts
deriving DecidableEq, Repr

structure RetryOutcome where
  /-- Number of times `generate_content` was invoked. -/
  attempts : Nat
  /-- Waits passed to `asyncio.sleep` (line 90), in order. -/
  sleeps : List ℚ
  /-- Events emitted during the loop, in order. -/
  events : List LogEvent
  result : RetryResult
deriving DecidableEq, Repr

def retryGo (behavior : Nat → Except String ModelResponse) (baseDelay : ℚ)
    (maxAttempts : Nat) (attemptNum : Nat) : Nat → RetryOutcome
  | 0 => ⟨0, [], [], .noAttempts⟩
  | fuel + 1 =>
    let attemptEv := LogEvent.attemptMsg attemptNum maxAttempts
    match behavior attemptNum with
    | .ok r => ⟨1, [], [attemptEv], .ok r⟩
    | .error e =>
      let waitTime := baseDelay * 2 ^ (attemptNum - 1)
      if attemptNum = maxAttempts then
        ⟨1, [], [attemptEv, .retryMsg e waitTime, .abortMsg], .exhausted e⟩
      else
        let rest := retryGo behavior baseDelay maxAttempts (attemptNum + 1) fuel
        ⟨rest.attempts + 1, waitTime :: rest.sleeps,
          attemptEv :: LogEvent.retryMsg e waitTime :: rest.events, rest.result⟩

/-- The whole retry block of `run_agent_task`, parameterized by
`max_attempts` and `base_delay_sec` (hard-coded at lines 70-71; the spec
calls this component RetryingInvoker). -/
def retryLoop (behavior : Nat → Except String ModelResponse) (baseDelay : ℚ)
    (maxAttempts : Nat) : RetryOutcome :=
  retryGo behavior baseDelay maxAttempts 1 maxAttempts

/-- Line 70: `max_attempts = 4`. -/
def max_attempts : Nat := 4

/-- Line 71: `base_delay_sec = 1.2`. -/
def base_delay_sec : ℚ := 6 / 5

/-! ## Logger routing (`src/gemini.py` lines 31-49)

`emit` / `emit_json` send each message to the supplied `logger`, falling
back to console printing when no logger was supplied or when the logger
call raises (the `except Exception` arms at lines 36-37 and 46-47).  A
logger stub records which events it raises on; routing never feeds back
into the computation, as every logger exception is caught. -/

structure Logger where
  /-- Models `logger(...)` raising an exception on this event. -/
  failsOn : LogEvent → Bool

inductive Sink where
  | toLogger
  | toConsole
deriving DecidableEq, Repr

def route (logger : Option Logger) (ev : LogEvent) : Sink :=
  match logger with
  | none => .toConsole
  | some l => if l.failsOn ev then .toConsole else .toLogger

/-! ## Part-classification walk (`src/gemini.py` lines 96-110) -/

/-- Line 110 truncates the displayed text: `part.text[:500] + "..."` when
longer than 500 characters. -/
def displayText (t : String) : String :=
  if t.length > 500 then (t.take 500).append ("...") else t

/-- Events emitted for one part `j` of candidate `i` (lines 101-110).  The
`emit_json` names default to `'unknown_function'` / `'unknown_response'`
via `getattr` when absent; `part.text` is emitted only when truthy, i.e.
present and non-empty. -/
def classifyPart (i j : Nat) (p : ResponsePart) : List LogEvent :=
  (match p.function_call with
   | some fc => [LogEvent.toolCall (i + 1) (j + 1)
       (fc.name.getD ("unknown_function")) fc.args]
   | none => []) ++
  (match p.function_response with
   | some fr => [LogEvent.toolResponse (i + 1) (j + 1)
       (fr.name.getD ("unknown_response")) fr.response]
   | none => []) ++
  (match p.text with
   | some t => if t.isEmpty then [] else [LogEvent.agentText (i + 1) (j + 1) (displayText t)]
   | none => [])

/-- The full walk over `response.candidates` (lines 97-110), guarded by the
truthiness of the candidates list at line 97 and of `candidate.content` at
line 99. -/
def classifyParts (r : ModelResponse) : List LogEvent :=
  if r.candidates.isEmpty then []
  else
    r.candidates.enum.flatMap fun ci =>
      match ci.2.content with
      | none => []
      | some ct => ct.parts.enum.flatMap fun pj => classifyPart ci.1 pj.1 pj.2

/-! ## `run_agent_task` (`src/gemini.py` lines 31-118) -/

inductive TaskResult where
  /-- Normal return of `response.text` (line 118). -/
  | returned (t : Option String)
  /-- The bare `raise` at line 89 propagated the final attempt's failure. -/
  | exhaustedRetries (e : String)
  /-- `response` stayed `None` and `response.text` at line 115 raised
  `AttributeError` (reachable only with `max_attempts = 0`). -/
  | crashedNoneAttr
deriving DecidableEq, Repr

structure AgentRunOutput where
  attempts : Nat
  sleeps : List ℚ
  /-- Every emitted event paired with the sink it was routed to, in order. -/
  events : List (Sink × LogEvent)
  result : TaskResult
deriving DecidableEq, Repr

/-- The `"="*80` framing line used throughout `run_agent_task`. -/
def eqLine : String :=
  String.mk (List.replicate 80 '=')

/-- Lines 51-53: opening banner. -/
def headerEvents (section_name : String) : List LogEvent :=
  [LogEvent.banner ("\n".append eqLine),
   LogEvent.banner (("🧠 ".append section_name).append (" — Agent Running")),
   LogEvent.banner eqLine]

/-- The `task_prompt` f-string template (`src/gemini.py` lines 55-66). -/
def task_prompt (section_name system_goal user_query : String) : String :=
  ("\nYou are the ".append section_name).append
    ((" agent.\nGoal: ".append system_goal).append
      (("\n\nUser query: ".append user_query).append
        ("\n\nInstructions:\n- Use the available tools to browse and gather live data.\n- Prefer official product pages and reputable sources.\n- Return clear, factual information. If uncertain, say so.\n- Include sources (URLs) in your answer when possible.\n")))

/-- Lines 92-93: the banner emitted between the retry loop and the part
walk. -/
def postRetryBanners (section_name : String) : List LogEvent :=
  [LogEvent.banner ((("\n📊 REAL-TIME TOOL EXECUTION (").append section_name).append ("):")),
   LogEvent.banner eqLine]

/-- Lines 112-114: the completion banner emitted before `emit(response.text)`. -/
def closingBanners (section_name : String) : List LogEvent :=
  [LogEvent.banner ("\n".append eqLine),
   LogEvent.banner ((("✅ ").append section_name).append (" — Agent Completed")),
   LogEvent.banner eqLine]

/-- The part of `run_agent_task` that follows the retry loop (lines
92-118), together with the header banner and the routing of every emitted
event per `emit` / `emit_json`.  On the exhausted path the bare `raise` at
line 89 propagates the last failure and nothing after the loop runs; with
zero attempts allowed, `response` stays `None`, the line 97 guard is
falsy, and evaluating `response.text` at line 115 raises. -/
def finishAgentRun (section_name : String) (logger : Option Logger)
    (ro : RetryOutcome) : AgentRunOutput :=
  match ro.result with
  | .exhausted e =>
    ⟨ro.attempts, ro.sleeps,
      (headerEvents section_name ++ ro.events).map (fun ev => (route logger ev, ev)),
      .exhaustedRetries e⟩
  | .noAttempts =>
    ⟨ro.attempts, ro.sleeps,
      (headerEvents section_name ++ ro.events ++ postRetryBanners section_name
        ++ [LogEvent.hasCandidates false] ++ closingBanners section_name).map
        (fun ev => (route logger ev, ev)),
      .crashedNoneAttr⟩
  | .ok r =>
    ⟨ro.attempts, ro.sleeps,
      (headerEvents section_name ++ ro.events ++ postRetryBanners section_name
        ++ [LogEvent.hasCandidates true] ++ classifyParts r
        ++ closingBanners section_name
        ++ [LogEvent.finalText r.text, LogEvent.banner eqLine]).map
        (fun ev => (route logger ev, ev)),
      .returned r.text⟩

/-- The function `run_agent_task` (`src/gemini.py` lines 31-118) with the retry
parameters exposed (the spec treats `max_attempts` and `base_delay` as
configuration of the RetryingInvoker): the prompt build of lines 55-66,
the retry loop of lines 69-90, and the post-loop walk and return of lines
92-118.  `behavior` is the model-client stub: it receives the built task
prompt and the attempt number.  The opaque MCP `session` argument is
absorbed into `behavior`, as the code only forwards it to the backend
call. -/
def run_agent_task_at (behavior : String → Nat → Except String ModelResponse)
    (maxAttempts : Nat) (baseDelay : ℚ)
    (section_name user_query system_goal : String) (logger : Option Logger) :
    AgentRunOutput :=
  finishAgentRun section_name logger
    (retryLoop (behavior (task_prompt section_name system_goal user_query))
      baseDelay maxAttempts)

/-- The function `run_agent_task` as shipped: the constants of lines 70-71 are fixed. -/
def run_agent_task (behavior : String → Nat → Except String ModelResponse)
    (section_name user_query system_goal : String) (logger : Option Logger) :
    AgentRunOutput :=
  run_agent_task_at behavior max_attempts base_delay_sec
    section_name user_query system_goal logger

/-! ## The orchestrator (`src/shopping_app.py` lines 45-108) -/

/-- Goal string of the product agent (`src/shopping_app.py` lines 55-57). -/
def product_goal : String :=
  "Collect full product profile: official images, title, key specs, variants, dimensions, weight, materials, warranty, box contents. Prefer official sources. Provide clean summary and source links."

/-- Goal string of the price agent (lines 58-60). -/
def price_goal : String :=
  "Find availability across major Indian e-commerce sites (Amazon, Flipkart, Reliance, Croma, Vijay Sales, official store). For each: price, currency, stock status, shipping ETA, seller, warranty notes, URL. Output a concise comparison."

/-- Goal string of the news agent (lines 61-63). -/
def news_goal : String :=
  "Summarize recent trending news, memes, launch rumors, controversies, major reviews about the product. Include dates, sources, and brief takeaways."

def productSection : String := "Product Profile"

def priceSection : String := "Price & Availability"

def newsSection : String := "Trending News & Social Buzz"

/-- Workflow-level events of one `execute_multi_agent` run. -/
inductive WfEvent where
  /-- `stdio_client(...).__aenter__` (line 67). -/
  | stdioOpen
  /-- `ClientSession(read, write).__aenter__` (line 68). -/
  | sessionOpen
  /-- `await session.initialize()` (line 69). -/
  | sessionInit
  /-- One `await run_agent_task(session, section, ...)` call
  (lines 73-79, 84-90, 95-101). -/
  | invokeTask (section_name : String)
  /-- `ClientSession.__aexit__`: the tool-session handle is released. -/
  | sessionClose
  /-- `stdio_client.__aexit__`: the subprocess transport is torn down. -/
  | stdioClose
deriving DecidableEq, Repr

/-- The returned mapping (lines 104-108), keyed by section. -/
structure Report where
  product : Option String
  price : Option String
  news : Option String
deriving DecidableEq, Repr

/-- How a finished `run_agent_task` looks to its caller: a returned text,
or a propagated exception. -/
def TaskResult.toExcept : TaskResult → Except String (Option String)
  | .returned t => .ok t
  | .exhaustedRetries e => .error e
  | .crashedNoneAttr => .error ("AttributeError")

structure WorkflowOutput where
  trace : List WfEvent
  result : Except String Report
deriving Repr

/-- The events every exit path ends with: Python `async with` runs
`__aexit__` of the inner `ClientSession` and then of the outer
`stdio_client` exactly once, on normal return and on a propagating
exception alike. -/
def closeEvents : List WfEvent :=
  [WfEvent.sessionClose, WfEvent.stdioClose]

/-- Events every run starts with: subprocess spawn, session handshake,
`await session.initialize()` (lines 67-69). -/
def openEvents : List WfEvent :=
  [WfEvent.stdioOpen, WfEvent.sessionOpen, WfEvent.sessionInit]

/-- Trace of a run whose product task raises. -/
def traceProductFail : List WfEvent :=
  openEvents ++ [WfEvent.invokeTask productSection] ++ closeEvents

/-- Trace of a run whose product task returns and whose price task
raises: the news task is never invoked. -/
def tracePriceFail : List WfEvent :=
  openEvents ++ [WfEvent.invokeTask productSection, WfEvent.invokeTask priceSection]
    ++ closeEvents

/-- Trace of a run that reaches the news task (whether or not it raises). -/
def traceAllInvoked : List WfEvent :=
  openEvents ++ [WfEvent.invokeTask productSection, WfEvent.invokeTask priceSection,
    WfEvent.invokeTask newsSection] ++ closeEvents

/-- The function `execute_multi_agent` (`src/shopping_app.py` lines 45-108): open the
tool session, run the three agents strictly in sequence against it, and
return the report keyed by section name.  A task failure propagates out of
the `async with` blocks, which still release the session.  The three
`Option Logger` arguments model `_make_status_logger(...) if enable_logs
else None` computed per task (lines 72, 83, 94); the Streamlit status
boxes are presentation only. -/
def execute_multi_agent (behavior : String → Nat → Except String ModelResponse)
    (user_query : String)
    (productLogger priceLogger newsLogger : Option Logger) : WorkflowOutput :=
  match (run_agent_task behavior productSection user_query product_goal
      productLogger).result.toExcept with
  | .error e => ⟨traceProductFail, .error e⟩
  | .ok product_text =>
    match (run_agent_task behavior priceSection user_query price_goal
        priceLogger).result.toExcept with
    | .error e => ⟨tracePriceFail, .error e⟩
    | .ok price_text =>
      match (run_agent_task behavior newsSection user_query news_goal
          newsLogger).result.toExcept with
      | .error e => ⟨traceAllInvoked, .error e⟩
      | .ok news_text =>
        ⟨traceAllInvoked, .ok ⟨product_text, price_text, news_text⟩⟩

/-! ## The dashboard status logger (`src/shopping_app.py` lines 31-42) -/

/-- One `logger(message)` call: append, then trim the front so that at
most the 100 most recent messages remain (`del messages[:len(messages) -
100]`). -/
def status_logger_step (messages : List String) (message : String) : List String :=
  let ms := messages ++ [message]
  if ms.length > 100 then ms.drop (ms.length - 100) else ms

/-- The retained buffer after a sequence of `logger` calls, starting from
the empty `messages` list created by `_make_status_logger`. -/
def status_logger_run (msgs : List String) : List String :=
  msgs.foldl status_logger_step []

/-! ## Concrete stubs used to exercise the model -/

/-- A response whose single candidate carries one text part. -/
def mkTextResponse (t : String) : ModelResponse :=
  ⟨[⟨some ⟨[⟨none, none, some t⟩]⟩⟩]⟩

/-- A model-client stub that answers the product, price and news prompts
of a `"q"` query with the texts `A`, `B`, `C` respectively. -/
def stubABC : String → Nat → Except String ModelResponse := fun p _ =>
  if p = task_prompt productSection product_goal ("q") then
    Except.ok (mkTextResponse ("A"))
  else if p = task_prompt priceSection price_goal ("q") then
    Except.ok (mkTextResponse ("B"))
  else
    Except.ok (mkTextResponse ("C"))

/-- A model-client stub that answers the product prompt of a `"q"` query
and fails every attempt of every other prompt with a transient 503. -/
def stubPriceFails : String → Nat → Except String ModelResponse := fun p _ =>
  if p = task_prompt productSection product_goal ("q") then
    Except.ok (mkTextResponse ("A"))
  else
    Except.error ("503")

/-! ## Helper lemmas -/

lemma finishAgentRun_attempts (sn : String) (lg : Option Logger) (ro : RetryOutcome) :
    (finishAgentRun sn lg ro).attempts = ro.attempts := by
  rcases h : ro.result with r | e | _ <;> simp [finishAgentRun, h]

lemma finishAgentRun_sleeps (sn : String) (lg : Option Logger) (ro : RetryOutcome) :
    (finishAgentRun sn lg ro).sleeps = ro.sleeps := by
  rcases h : ro.result with r | e | _ <;> simp [finishAgentRun, h]

lemma finishAgentRun_result_exhausted (sn : String) (lg : Option Logger)
    (ro : RetryOutcome) (e : String) (h : ro.result = RetryResult.exhausted e) :
    (finishAgentRun sn lg ro).result = TaskResult.exhaustedRetries e := by
  simp [finishAgentRun, h]

lemma finishAgentRun_result_ok (sn : String) (lg : Option Logger)
    (ro : RetryOutcome) (r : ModelResponse) (h : ro.result = RetryResult.ok r) :
    (finishAgentRun sn lg ro).result = TaskResult.returned r.text := by
  simp [finishAgentRun, h]

lemma retryGo_fail_all (behavior : Nat → Except String ModelResponse)
    (bd : ℚ) (k : Nat)
    (hfail : ∀ i, ∃ e, behavior i = Except.error e) :
    ∀ fuel a, a + fuel = k + 1 → 1 ≤ fuel →
      (retryGo behavior bd k a fuel).attempts = fuel ∧
      (retryGo behavior bd k a fuel).sleeps.length = fuel - 1 ∧
      ∃ e, behavior k = Except.error e ∧
        (retryGo behavior bd k a fuel).result = RetryResult.exhausted e := by
  intro fuel
  induction fuel with
  | zero => intro a _ hfuel; omega
  | succ f ih =>
    intro a hsum _
    obtain ⟨e, he⟩ := hfail a
    by_cases hak : a = k
    · have hf : f = 0 := by omega
      subst hf
      subst hak
      refine ⟨by simp [retryGo, he], by simp [retryGo, he], e, he, by simp [retryGo, he]⟩
    · have hf : 1 ≤ f := by omega
      obtain ⟨ha', hs', e', he', hr'⟩ := ih (a + 1) (by omega) hf
      refine ⟨?_, ?_, e', he', ?_⟩
      · simp [retryGo, he, hak, ha']
      · simp [retryGo, he, hak, hs']
        omega
      · simp [retryGo, he, hak, hr']

/-- C1: with `max_attempts = k ≥ 1` and a model client that fails on every
attempt, `run_agent_task` invokes the client exactly `k` times, re-raises
the final failure (the spec's `ExhaustedRetries`), and sleeps only `k - 1`
times — never after the final failed attempt. -/
theorem run_agent_task_exhausts_after_k_attempts
    (behavior : String → Nat → Except String ModelResponse)
    (bd : ℚ) (k : Nat) (sn uq g : String) (lg : Option Logger)
    (hk : 1 ≤ k)
    (hfail : ∀ p i, ∃ e, behavior p i = Except.error e) :
    (run_agent_task_at behavior k bd sn uq g lg).attempts = k ∧
    (∃ e, behavior (task_prompt sn g uq) k = Except.error e ∧
      (run_agent_task_at behavior k bd sn uq g lg).result =
        TaskResult.exhaustedRetries e) ∧
    (run_agent_task_at behavior k bd sn uq g lg).sleeps.length = k - 1 := by
  obtain ⟨ha, hs, e, he, hr⟩ :=
    retryGo_fail_all (behavior (task_prompt sn g uq)) bd k
      (hfail (task_prompt sn g uq)) k 1 (by omega) hk
  refine ⟨?_, ⟨e, he, ?_⟩, ?_⟩
  · rw [run_agent_task_at, finishAgentRun_attempts]
    exact ha
  · rw [run_agent_task_at]
    exact finishAgentRun_result_exhausted _ _ _ _ hr
  · rw [run_agent_task_at, finishAgentRun_sleeps]
    exact hs

/-- Witness for C1: a client that always fails with a 503 makes exactly 4
attempts at the default configuration, 3 sleeps, and the task fails with
the re-raised 503. -/
theorem run_agent_task_exhausts_after_k_attempts_witness :
    (run_agent_task_at (fun _ _ => Except.error ("503")) 4 base_delay_sec
      productSection ("q") product_goal none).attempts = 4 ∧
    (∃ e, (Except.error ("503") : Except String ModelResponse) = Except.error e ∧
      (run_agent_task_at (fun _ _ => Except.error ("503")) 4 base_delay_sec
        productSection ("q") product_goal none).result =
          TaskResult.exhaustedRetries e) ∧
    (run_agent_task_at (fun _ _ => Except.error ("503")) 4 base_delay_sec
      productSection ("q") product_goal none).sleeps.length = 4 - 1 :=
  run_agent_task_exhausts_after_k_attempts (fun _ _ => Except.error ("503"))
    base_delay_sec 4 productSection ("q") product_goal none (by omega)
    (fun _ _ => ⟨"503", rfl⟩)

lemma retryGo_sleeps_geometric (behavior : Nat → Except String ModelResponse)
    (bd : ℚ) (m : Nat) :
    ∀ fuel a, 1 ≤ a → ∀ j, j < (retryGo behavior bd m a fuel).sleeps.length →
      (retryGo behavior bd m a fuel).sleeps[j]? = some (bd * 2 ^ (a - 1 + j)) := by
  intro fuel
  induction fuel with
  | zero => intro a _ j hj; simp [retryGo] at hj
  | succ f ih =>
    intro a ha j hj
    rcases hb : behavior a with e | r
    · by_cases hak : a = m
      · subst hak
        simp [retryGo, hb] at hj
      · rcases j with _ | j'
        · simp [retryGo, hb, hak]
        · have hj' : j' < (retryGo behavior bd m (a + 1) f).sleeps.length := by
            simp [retryGo, hb, hak] at hj
            omega
          have hrec := ih (a + 1) (by omega) j' hj'
          have hexp : a + 1 - 1 + j' = a - 1 + (j' + 1) := by omega
          simp [retryGo, hb, hak]
          rw [hrec, hexp]
    · simp [retryGo, hb] at hj

/-- C2: in the retry loop of `run_agent_task` the wait slept before
attempt `i` (for `i ≥ 2`; it is the sleep recorded at index `i - 2`, as
the first sleep precedes attempt 2) equals `base_delay * 2 ^ (i - 2)`, and
the configured defaults are `max_attempts = 4` and `base_delay_sec = 1.2 =
6/5` time-units.  The hypothesis states that attempt `i` was actually
preceded by a sleep. -/
theorem backoff_delay_before_attempt
    (behavior : String → Nat → Except String ModelResponse)
    (sn uq g : String) (lg : Option Logger) (i : Nat)
    (h2 : 2 ≤ i)
    (hhap : i - 2 < (run_agent_task behavior sn uq g lg).sleeps.length) :
    (run_agent_task behavior sn uq g lg).sleeps[i - 2]? =
      some (base_delay_sec * 2 ^ (i - 2)) ∧
    max_attempts = 4 ∧ base_delay_sec = 6 / 5 := by
  refine ⟨?_, rfl, rfl⟩
  have hS : (run_agent_task behavior sn uq g lg).sleeps =
      (retryLoop (behavior (task_prompt sn g uq)) base_delay_sec max_attempts).sleeps := by
    rw [run_agent_task, run_agent_task_at, finishAgentRun_sleeps]
  rw [hS] at hhap ⊢
  simp only [retryLoop] at hhap ⊢
  have hgeo := retryGo_sleeps_geometric (behavior (task_prompt sn g uq))
    base_delay_sec max_attempts max_attempts 1 (by omega) (i - 2) hhap
  simpa using hgeo

/-- Witness for C2: with an always-failing client at the defaults, the
sleep before attempt 3 is `1.2 * 2 = 2.4` time-units. -/
theorem backoff_delay_before_attempt_witness :
    2 ≤ 3 ∧
    3 - 2 < (run_agent_task (fun _ _ => Except.error ("x"))
      productSection ("q") product_goal none).sleeps.length ∧
    ((run_agent_task (fun _ _ => Except.error ("x"))
        productSection ("q") product_goal none).sleeps[3 - 2]? =
      some (base_delay_sec * 2 ^ (3 - 2)) ∧
     max_attempts = 4 ∧ base_delay_sec = 6 / 5) :=
  ⟨by omega, by decide,
    backoff_delay_before_attempt (fun _ _ => Except.error ("x"))
      productSection ("q") product_goal none 3 (by omega) (by decide)⟩

lemma retryGo_succeeds (behavior : Nat → Except String ModelResponse)
    (bd : ℚ) (m k : Nat) (r : ModelResponse)
    (hok : behavior k = Except.ok r)
    (hfail : ∀ i, 1 ≤ i → i < k → ∃ e, behavior i = Except.error e) :
    ∀ fuel a, 1 ≤ a → a ≤ k → a + fuel = m + 1 → k ≤ m →
      (retryGo behavior bd m a fuel).attempts = k - a + 1 ∧
      (retryGo behavior bd m a fuel).sleeps.length = k - a ∧
      (retryGo behavior bd m a fuel).result = RetryResult.ok r := by
  intro fuel
  induction fuel with
  | zero => intro a _ hak hsum hkm; omega
  | succ f ih =>
    intro a ha hak hsum hkm
    by_cases h : a = k
    · subst h
      refine ⟨?_, ?_, ?_⟩ <;> simp [retryGo, hok]
    · have hlt : a < k := lt_of_le_of_ne hak h
      obtain ⟨e, he⟩ := hfail a ha hlt
      have ham : a ≠ m := by omega
      obtain ⟨ha', hs', hr'⟩ := ih (a + 1) (by omega) (by omega) (by omega) hkm
      refine ⟨?_, ?_, ?_⟩
      · simp [retryGo, he, ham, ha']
        omega
      · simp [retryGo, he, ham, hs']
        omega
      · simp [retryGo, he, ham, hr']

/-- C3: if the model client fails on attempts `1..k-1` and succeeds on
attempt `k ≤ max_attempts`, `run_agent_task` makes exactly `k` attempts
(no attempt follows the first success, as the loop breaks) and returns
the success response's text. -/
theorem run_agent_task_stops_at_first_success
    (behavior : String → Nat → Except String ModelResponse)
    (m : Nat) (bd : ℚ) (sn uq g : String) (lg : Option Logger)
    (k : Nat) (r : ModelResponse)
    (hk : 1 ≤ k) (hkm : k ≤ m)
    (hfail : ∀ i, 1 ≤ i → i < k →
      ∃ e, behavior (task_prompt sn g uq) i = Except.error e)
    (hok : behavior (task_prompt sn g uq) k = Except.ok r) :
    (run_agent_task_at behavior m bd sn uq g lg).attempts = k ∧
    (run_agent_task_at behavior m bd sn uq g lg).result =
      TaskResult.returned r.text := by
  obtain ⟨ha, hs, hr⟩ :=
    retryGo_succeeds (behavior (task_prompt sn g uq)) bd m k r hok hfail
      m 1 (by omega) hk (by omega) hkm
  constructor
  · rw [run_agent_task_at, finishAgentRun_attempts]
    simp only [retryLoop]
    rw [ha]
    omega
  · rw [run_agent_task_at]
    exact finishAgentRun_result_ok _ _ _ _ hr

/-- Witness for C3: a client that fails on attempts 1 and 2 and succeeds
on attempt 3 makes exactly 3 of the 4 allowed attempts and the task
returns the success text. -/
theorem run_agent_task_stops_at_first_success_witness :
    1 ≤ 3 ∧ 3 ≤ 4 ∧
    (run_agent_task_at
      (fun _ i => if i < 3 then Except.error ("x")
        else Except.ok (mkTextResponse ("A")))
      4 base_delay_sec productSection ("q") product_goal none).attempts = 3 ∧
    (run_agent_task_at
      (fun _ i => if i < 3 then Except.error ("x")
        else Except.ok (mkTextResponse ("A")))
      4 base_delay_sec productSection ("q") product_goal none).result =
        TaskResult.returned (some ("A")) :=
  ⟨by omega, by omega,
    run_agent_task_stops_at_first_success
      (fun _ i => if i < 3 then Except.error ("x")
        else Except.ok (mkTextResponse ("A")))
      4 base_delay_sec productSection ("q") product_goal none 3
      (mkTextResponse ("A")) (by omega) (by omega)
      (fun i _ hi => ⟨"x", by simp [hi]⟩) (by simp)⟩

/-- C4: whenever the retry loop ends with a successful response `r`,
`run_agent_task` returns `r`'s final text field verbatim — whatever it
is, with no validation — and when the response carries no text field the
returned value is `None` (a normal return, not a raised error). -/
theorem run_agent_task_returns_text_verbatim
    (behavior : String → Nat → Except String ModelResponse)
    (m : Nat) (bd : ℚ) (sn uq g : String) (lg : Option Logger)
    (r : ModelResponse)
    (hok : (retryLoop (behavior (task_prompt sn g uq)) bd m).result =
      RetryResult.ok r) :
    (run_agent_task_at behavior m bd sn uq g lg).result =
      TaskResult.returned r.text ∧
    (r.text = none →
      (run_agent_task_at behavior m bd sn uq g lg).result =
        TaskResult.returned none) := by
  have h1 : (run_agent_task_at behavior m bd sn uq g lg).result =
      TaskResult.returned r.text := by
    rw [run_agent_task_at]
    exact finishAgentRun_result_ok _ _ _ _ hok
  exact ⟨h1, fun hn => by rw [h1, hn]⟩

/-- Witness for C4: a client that immediately returns a response with no
text parts yields a `None` return. -/
theorem run_agent_task_returns_text_verbatim_witness :
    (retryLoop ((fun _ _ => Except.ok (⟨[⟨none⟩]⟩ : ModelResponse))
        (task_prompt productSection product_goal ("q")))
      base_delay_sec 4).result = RetryResult.ok (⟨[⟨none⟩]⟩ : ModelResponse) ∧
    ((run_agent_task_at (fun _ _ => Except.ok (⟨[⟨none⟩]⟩ : ModelResponse))
        4 base_delay_sec productSection ("q") product_goal none).result =
      TaskResult.returned (ModelResponse.text ⟨[⟨none⟩]⟩) ∧
     (ModelResponse.text (⟨[⟨none⟩]⟩ : ModelResponse) = none →
      (run_agent_task_at (fun _ _ => Except.ok (⟨[⟨none⟩]⟩ : ModelResponse))
        4 base_delay_sec productSection ("q") product_goal none).result =
        TaskResult.returned none)) :=
  ⟨rfl,
    run_agent_task_returns_text_verbatim
      (fun _ _ => Except.ok (⟨[⟨none⟩]⟩ : ModelResponse))
      4 base_delay_sec productSection ("q") product_goal none ⟨[⟨none⟩]⟩ rfl⟩

/-- C5: a successful response with zero candidates does not crash the
task: the part-classification walk of lines 97-110 emits nothing (the
line 97 guard is falsy), the response's text accessor yields `None`, and
`run_agent_task` completes normally with a `None` text — the spec's
`MissingAnswer` outcome. -/
theorem empty_candidates_skips_walk_and_returns_none
    (behavior : String → Nat → Except String ModelResponse)
    (m : Nat) (bd : ℚ) (sn uq g : String) (lg : Option Logger)
    (r : ModelResponse)
    (hok : (retryLoop (behavior (task_prompt sn g uq)) bd m).result =
      RetryResult.ok r)
    (hempty : r.candidates = []) :
    classifyParts r = [] ∧
    ModelResponse.text r = none ∧
    (run_agent_task_at behavior m bd sn uq g lg).result =
      TaskResult.returned none := by
  have hc : classifyParts r = [] := by simp [classifyParts, hempty]
  have ht : ModelResponse.text r = none := by
    simp [ModelResponse.text, hempty]
  have hres : (run_agent_task_at behavior m bd sn uq g lg).result =
      TaskResult.returned r.text := by
    rw [run_agent_task_at]
    exact finishAgentRun_result_ok _ _ _ _ hok
  exact ⟨hc, ht, by rw [hres, ht]⟩

/-- Witness for C5: a client returning a candidate-free response yields
the empty walk and a `None` result. -/
theorem empty_candidates_skips_walk_and_returns_none_witness :
    (retryLoop ((fun _ _ => Except.ok (⟨[]⟩ : ModelResponse))
        (task_prompt productSection product_goal ("q")))
      base_delay_sec 4).result = RetryResult.ok (⟨[]⟩ : ModelResponse) ∧
    (⟨[]⟩ : ModelResponse).candidates = [] ∧
    (classifyParts (⟨[]⟩ : ModelResponse) = [] ∧
     ModelResponse.text (⟨[]⟩ : ModelResponse) = none ∧
     (run_agent_task_at (fun _ _ => Except.ok (⟨[]⟩ : ModelResponse))
        4 base_delay_sec productSection ("q") product_goal none).result =
       TaskResult.returned none) :=
  ⟨rfl, rfl,
    empty_candidates_skips_walk_and_returns_none
      (fun _ _ => Except.ok (⟨[]⟩ : ModelResponse))
      4 base_delay_sec productSection ("q") product_goal none ⟨[]⟩ rfl rfl⟩

/-- C9: the part-classification walk and all other logging are purely
observational.  The task's returned value, attempt count and backoff
schedule are identical whichever logger is supplied (including none at
all, and loggers that raise on any subset of messages); only the sink
each message is routed to differs, never the message sequence itself. -/
theorem logging_does_not_affect_result
    (behavior : String → Nat → Except String ModelResponse)
    (m : Nat) (bd : ℚ) (sn uq g : String) (l₁ l₂ : Option Logger) :
    (run_agent_task_at behavior m bd sn uq g l₁).result =
      (run_agent_task_at behavior m bd sn uq g l₂).result ∧
    (run_agent_task_at behavior m bd sn uq g l₁).attempts =
      (run_agent_task_at behavior m bd sn uq g l₂).attempts ∧
    (run_agent_task_at behavior m bd sn uq g l₁).sleeps =
      (run_agent_task_at behavior m bd sn uq g l₂).sleeps ∧
    (run_agent_task_at behavior m bd sn uq g l₁).events.map Prod.snd =
      (run_agent_task_at behavior m bd sn uq g l₂).events.map Prod.snd := by
  simp only [run_agent_task_at]
  rcases h : (retryLoop (behavior (task_prompt sn g uq)) bd m).result
    with r | e | _ <;>
  simp [finishAgentRun, h, List.map_map, Function.comp_def]

lemma execute_trace_cases (behavior : String → Nat → Except String ModelResponse)
    (uq : String) (pl prl nl : Option Logger) :
    (execute_multi_agent behavior uq pl prl nl).trace = traceProductFail ∨
    (execute_multi_agent behavior uq pl prl nl).trace = tracePriceFail ∨
    (execute_multi_agent behavior uq pl prl nl).trace = traceAllInvoked := by
  unfold execute_multi_agent
  rcases hp : (run_agent_task behavior productSection uq product_goal
      pl).result.toExcept with e | tp
  · left
    simp [hp]
  · rcases hpr : (run_agent_task behavior priceSection uq price_goal
        prl).result.toExcept with e | tpr
    · right; left
      simp [hp, hpr]
    · rcases hn : (run_agent_task behavior newsSection uq news_goal
          nl).result.toExcept with e | tn
      · right; right
        simp [hp, hpr, hn]
      · right; right
        simp [hp, hpr, hn]

/-- C6: when the three agent tasks return the texts `A`, `B`, `C`, the
orchestrator returns the report mapping the product section to `A`, the
price section to `B` and the news section to `C`. -/
theorem orchestrator_report_ABC
    (behavior : String → Nat → Except String ModelResponse)
    (uq : String) (pl prl nl : Option Logger)
    (hA : (run_agent_task behavior productSection uq product_goal pl).result =
      TaskResult.returned (some ("A")))
    (hB : (run_agent_task behavior priceSection uq price_goal prl).result =
      TaskResult.returned (some ("B")))
    (hC : (run_agent_task behavior newsSection uq news_goal nl).result =
      TaskResult.returned (some ("C"))) :
    (execute_multi_agent behavior uq pl prl nl).result =
      Except.ok ⟨some ("A"), some ("B"), some ("C")⟩ := by
  simp [execute_multi_agent, hA, hB, hC, TaskResult.toExcept]

set_option maxRecDepth 40000 in
/-- Witness for C6: `stubABC` makes each task return its letter, and the
orchestrator assembles the `A`/`B`/`C` report. -/
theorem orchestrator_report_ABC_witness :
    (run_agent_task stubABC productSection ("q") product_goal none).result =
      TaskResult.returned (some ("A")) ∧
    (run_agent_task stubABC priceSection ("q") price_goal none).result =
      TaskResult.returned (some ("B")) ∧
    (run_agent_task stubABC newsSection ("q") news_goal none).result =
      TaskResult.returned (some ("C")) ∧
    (execute_multi_agent stubABC ("q") none none none).result =
      Except.ok ⟨some ("A"), some ("B"), some ("C")⟩ :=
  ⟨by decide, by decide, by decide,
    orchestrator_report_ABC stubABC ("q") none none none
      (by decide) (by decide) (by decide)⟩

/-- C7: within one workflow run the agent tasks are invoked strictly in
the order product, price, news, each at most once: every possible trace
is one of the three sequential prefixes ending in the session release.
Moreover, when the product task returns and the price task raises the
re-raised model failure (the spec's `ExhaustedRetries`), the run's trace
stops after the price invocation and the news task is never invoked. -/
theorem workflow_sequential_and_aborts_before_news
    (behavior : String → Nat → Except String ModelResponse)
    (uq : String) (pl prl nl : Option Logger) :
    ((execute_multi_agent behavior uq pl prl nl).trace = traceProductFail ∨
     (execute_multi_agent behavior uq pl prl nl).trace = tracePriceFail ∨
     (execute_multi_agent behavior uq pl prl nl).trace = traceAllInvoked) ∧
    (∀ t e,
      (run_agent_task behavior productSection uq product_goal pl).result =
        TaskResult.returned t →
      (run_agent_task behavior priceSection uq price_goal prl).result =
        TaskResult.exhaustedRetries e →
      (execute_multi_agent behavior uq pl prl nl).trace = tracePriceFail ∧
      WfEvent.invokeTask newsSection ∉
        (execute_multi_agent behavior uq pl prl nl).trace) := by
  refine ⟨execute_trace_cases behavior uq pl prl nl, ?_⟩
  intro t e hp hpr
  have htr : (execute_multi_agent behavior uq pl prl nl).trace = tracePriceFail := by
    simp [execute_multi_agent, hp, hpr, TaskResult.toExcept]
  refine ⟨htr, ?_⟩
  rw [htr]
  decide

set_option maxRecDepth 40000 in
/-- Witness for C7: with `stubPriceFails` the product task returns `A`,
the price task exhausts its retries, the trace stops after the price
invocation and the news task never runs. -/
theorem workflow_sequential_and_aborts_before_news_witness :
    (run_agent_task stubPriceFails productSection ("q") product_goal none).result =
      TaskResult.returned (some ("A")) ∧
    (run_agent_task stubPriceFails priceSection ("q") price_goal none).result =
      TaskResult.exhaustedRetries ("503") ∧
    ((execute_multi_agent stubPriceFails ("q") none none none).trace =
      tracePriceFail ∧
     WfEvent.invokeTask newsSection ∉
      (execute_multi_agent stubPriceFails ("q") none none none).trace) :=
  ⟨by decide, by decide,
    (workflow_sequential_and_aborts_before_news stubPriceFails ("q")
      none none none).2 (some ("A")) ("503") (by decide) (by decide)⟩

/-- C8: on every exit path of the workflow — normal completion and any
task failure alike — the tool-session handle is released exactly once
(one `ClientSession.__aexit__` and one `stdio_client.__aexit__`), and the
release is the final pair of events, so the session is never used after
close. -/
theorem session_closed_exactly_once
    (behavior : String → Nat → Except String ModelResponse)
    (uq : String) (pl prl nl : Option Logger) :
    ((execute_multi_agent behavior uq pl prl nl).trace).count
      WfEvent.sessionClose = 1 ∧
    ((execute_multi_agent behavior uq pl prl nl).trace).count
      WfEvent.stdioClose = 1 ∧
    ∃ p, (execute_multi_agent behavior uq pl prl nl).trace = p ++ closeEvents ∧
      WfEvent.sessionClose ∉ p ∧ WfEvent.stdioClose ∉ p := by
  rcases execute_trace_cases behavior uq pl prl nl with h | h | h <;> rw [h]
  · exact ⟨by decide, by decide,
      openEvents ++ [WfEvent.invokeTask productSection],
      by decide, by decide, by decide⟩
  · exact ⟨by decide, by decide,
      openEvents ++ [WfEvent.invokeTask productSection,
        WfEvent.invokeTask priceSection],
      by decide, by decide, by decide⟩
  · exact ⟨by decide, by decide,
      openEvents ++ [WfEvent.invokeTask productSection,
        WfEvent.invokeTask priceSection, WfEvent.invokeTask newsSection],
      by decide, by decide, by decide⟩

lemma status_logger_run_concat (xs : List String) (m : String) :
    status_logger_run (xs ++ [m]) =
      status_logger_step (status_logger_run xs) m := by
  simp [status_logger_run, List.foldl_append]

lemma status_logger_run_eq_drop (msgs : List String) :
    status_logger_run msgs = msgs.drop (msgs.length - 100) := by
  induction msgs using List.reverseRecOn with
  | nil => rfl
  | append_singleton xs m ih =>
    rw [status_logger_run_concat, ih]
    rcases le_or_lt xs.length 99 with h | h
    · have h1 : xs.length - 100 = 0 := by omega
      have h2 : (xs ++ [m]).length - 100 = 0 := by
        simp
        omega
      rw [h1, h2]
      simp [status_logger_step]
      omega
    · have hlen : (xs.drop (xs.length - 100)).length = 100 := by
        simp
        omega
      have hcond : ((xs.drop (xs.length - 100)) ++ [m]).length > 100 := by
        simp [hlen]
      simp only [status_logger_step]
      rw [if_pos hcond]
      have hl1 : ((xs.drop (xs.length - 100)) ++ [m]).length - 100 = 1 := by
        simp [hlen]
      rw [hl1]
      rw [List.drop_append_of_le_length (by omega)]
      rw [List.drop_drop]
      rw [List.drop_append_of_le_length (by simp)]
      have : xs.length - 100 + 1 = (xs ++ [m]).length - 100 := by
        simp
        omega
      rw [this]

/-- C10: after any sequence of emitted messages the status logger's
retained buffer is exactly the suffix of the 100 most recent messages
(older ones discarded from the front, in order), and hence never holds
more than 100 messages.  Since the statement quantifies over every
message sequence, it applies after every emitted message: instantiate it
at each prefix of the stream. -/
theorem status_logger_bounded_buffer (msgs : List String) :
    (status_logger_run msgs).length ≤ 100 ∧
    status_logger_run msgs = msgs.drop (msgs.length - 100) := by
  refine ⟨?_, status_logger_run_eq_drop msgs⟩
  rw [status_logger_run_eq_drop msgs]
  simp
  omega
